import Mathlib

/-!
Verification development for the gamdl Chrome extension.

The repository is a browser-extension front end (popup script, background
service worker, install scripts) plus a native-messaging host that drives the
external `gamdl` download tool.  The shell scripts and markup are glue; the
stateful core is the native host's download orchestration (process launcher,
output parser, process registry, status aggregator, item lister) together with
the background worker's message handling and the popup's URL classification
and item-selection logic.

The popup script and the background worker are embedded directly from their
JavaScript sources.  The native host script (`native-host/gamdl_host.py`) is
referenced by the installers and the README but its body is not part of the
checked sources, so its components are modelled from the specification; each
such definition carries a doc comment beginning `Modelled from the spec:`.
-/

namespace Gamdl

/-! ## Data model: per-job progress and jobs -/

/-- Modelled from the spec: `TrackProgress` — current track index, total track
count, human-readable track name, percent-complete value (0–100), count of
tracks completed so far (spec §3).  The source file `gamdl_host.py` that holds
this state is not among the checked sources. -/
structure TrackProgress where
  current : Nat
  total : Nat
  name : String
  percent : Nat
  completed : Nat
deriving DecidableEq, Repr

/-- Modelled from the spec: `DownloadJob` — per-track progress, list of error
strings, completion flag (spec §3).  From `gamdl_host.py`, not among the
checked sources. -/
structure DownloadJob where
  progress : TrackProgress
  errors : List String
  complete : Bool
deriving DecidableEq, Repr

/-- Modelled from the spec: the initial placeholder state visible immediately
on insert (spec §5). -/
def initJob : DownloadJob :=
  { progress := { current := 0, total := 0, name := "", percent := 0, completed := 0 },
    errors := [], complete := false }

/-! ## Output Parser

Modelled from the spec (§4.2 and the §8 example): the parser recognizes a
"track started" pattern (`track <cur>/<total> <name> started`), a "progress
percent" pattern (`progress <n>%`), a "track completed" pattern
(`track <cur>/<total> completed`), and an "error" pattern (`error <text>`);
all other lines are ignored.  The percent field is kept in 0–100 and the
completed counter never exceeds the total, as the spec's data model (§3) and
invariants (§8) require of the parser for every input sequence. -/

/-- Splits a character list on a separator character; adjacent separators
yield empty fields, like `str.split(sep)`. -/
def splitOnChar (sep : Char) : List Char → List (List Char)
  | [] => [[]]
  | c :: rest =>
    match splitOnChar sep rest with
    | [] => [[]]
    | w :: ws => if c = sep then [] :: w :: ws else (c :: w) :: ws

/-- Joins character-list words with a separator character. -/
def joinWith (sep : Char) : List (List Char) → List Char
  | [] => []
  | [w] => w
  | w :: ws => w ++ sep :: joinWith sep ws

/-- The whitespace-separated words of a line, as character lists. -/
def wordsOf (line : String) : List (List Char) :=
  splitOnChar ' ' line.toList

/-- Digits-only character run to `Nat` (no sign, no decimal point). -/
def natOfDigits (cs : List Char) : Nat :=
  cs.foldl (fun n c => 10 * n + (c.toNat - 48)) 0

/-- Parses a nonempty all-digit character run; `none` otherwise. -/
def parseNat? (cs : List Char) : Option Nat :=
  if cs.isEmpty then none
  else if cs.all Char.isDigit then some (natOfDigits cs) else none

/-- Parses `<cur>/<total>` with both sides nonempty digit runs. -/
def parseFraction? (cs : List Char) : Option (Nat × Nat) :=
  match splitOnChar '/' cs with
  | [c, t] =>
    match parseNat? c, parseNat? t with
    | some cn, some tn => some (cn, tn)
    | _, _ => none
  | _ => none

/-- Modelled from the spec: the "track started" pattern, yielding
(current index, total, name) (spec §4.2; §8 example line
`track 1/2 9 started`). -/
def trackStarted? (line : String) : Option (Nat × Nat × String) :=
  match wordsOf line with
  | tk :: frac :: rest =>
    if tk = "track".toList && rest.length ≥ 2 && rest.getLast? = some "started".toList then
      match parseFraction? frac with
      | some (c, t) => some (c, t, (joinWith ' ' rest.dropLast).asString)
      | none => none
    else none
  | _ => none

/-- Modelled from the spec: the "progress percent" pattern updating the active
track's percent (spec §4.2; §8 example line `progress 50%`). -/
def progressPercent? (line : String) : Option Nat :=
  match wordsOf line with
  | [w, p] =>
    if w = "progress".toList && p.getLast? = some '%' then parseNat? p.dropLast
    else none
  | _ => none

/-- Modelled from the spec: the "track completed" pattern incrementing the
completed counter (spec §4.2; §8 example line `track 1/2 completed`). -/
def trackCompleted? (line : String) : Option (Nat × Nat) :=
  match wordsOf line with
  | [tk, frac, done] =>
    if tk = "track".toList && done = "completed".toList then parseFraction? frac else none
  | _ => none

/-- Modelled from the spec: the "error" pattern appending to the error list
(spec §4.2); the exact line format is not fixed by the spec, taken here as a
line whose first word is `error`. -/
def errorLine? (line : String) : Option String :=
  match wordsOf line with
  | e :: rest =>
    if e = "error".toList && !rest.isEmpty then some (joinWith ' ' rest).asString else none
  | _ => none

/-- Modelled from the spec: one step of the Output Parser on a single output
line (spec §4.2).  Recognized patterns update the job; unrecognized lines
leave it unchanged.  The percent is clamped to 100 and the completed counter
to the total so that the spec's §3/§8 range invariants hold on every input. -/
def parseLine (job : DownloadJob) (line : String) : DownloadJob :=
  match trackStarted? line with
  | some (c, t, nm) =>
    { job with progress :=
        { current := c, total := t, name := nm, percent := 0,
          completed := min job.progress.completed t } }
  | none =>
    match progressPercent? line with
    | some p => { job with progress := { job.progress with percent := min p 100 } }
    | none =>
      match trackCompleted? line with
      | some _ =>
        { job with progress :=
            { job.progress with completed := min (job.progress.completed + 1) job.progress.total } }
      | none =>
        match errorLine? line with
        | some e => { job with errors := job.errors ++ [e] }
        | none => job

/-- Feeding a whole sequence of output lines to the parser, starting from the
initial placeholder job. -/
def parseLines (lines : List String) : DownloadJob :=
  lines.foldl parseLine initJob

/-- The §8 range invariant on a progress record. -/
def ProgressInv (p : TrackProgress) : Prop :=
  0 ≤ p.percent ∧ p.percent ≤ 100 ∧ p.completed ≤ p.total

theorem parseLine_preserves_inv (job : DownloadJob) (line : String)
    (h : ProgressInv job.progress) : ProgressInv (parseLine job line).progress := by
  unfold parseLine
  rcases h with ⟨-, h2, h3⟩
  cases trackStarted? line with
  | some v =>
    obtain ⟨c, t, nm⟩ := v
    exact ⟨Nat.zero_le _, by simp, Nat.min_le_right _ _⟩
  | none =>
    cases progressPercent? line with
    | some p => exact ⟨Nat.zero_le _, Nat.min_le_right _ _, h3⟩
    | none =>
      cases trackCompleted? line with
      | some v => exact ⟨Nat.zero_le _, h2, Nat.min_le_right _ _⟩
      | none =>
        cases errorLine? line with
        | some e => exact ⟨Nat.zero_le _, h2, h3⟩
        | none => exact ⟨Nat.zero_le _, h2, h3⟩

theorem foldl_parseLine_inv (lines : List String) (job : DownloadJob)
    (h : ProgressInv job.progress) : ProgressInv (lines.foldl parseLine job).progress := by
  induction lines generalizing job with
  | nil => exact h
  | cons l ls ih => exact ih _ (parseLine_preserves_inv job l h)

/-- C1: for every sequence of process output lines fed to the Output Parser,
the derived TrackProgress satisfies `0 ≤ percent ≤ 100` and
`completed ≤ total`. -/
theorem parser_progress_invariant (lines : List String) :
    0 ≤ (parseLines lines).progress.percent ∧
    (parseLines lines).progress.percent ≤ 100 ∧
    (parseLines lines).progress.completed ≤ (parseLines lines).progress.total :=
  foldl_parseLine_inv lines initJob ⟨Nat.zero_le _, by simp [initJob], by simp [initJob]⟩

/-- C8: an output line matching none of the recognized patterns (track
started, progress percent, track completed, error) leaves the job's state
unchanged; parsing is a total function over arbitrary tool output. -/
theorem unrecognized_line_noop (job : DownloadJob) (line : String)
    (h1 : trackStarted? line = none) (h2 : progressPercent? line = none)
    (h3 : trackCompleted? line = none) (h4 : errorLine? line = none) :
    parseLine job line = job := by
  unfold parseLine
  rw [h1, h2, h3, h4]

/-- C8 witness: the concrete line `Downloading metadata...` matches no
recognized pattern and leaves the initial job unchanged. -/
theorem unrecognized_line_noop_witness :
    trackStarted? "Downloading metadata..." = none ∧
    parseLine initJob "Downloading metadata..." = initJob :=
  ⟨rfl, unrecognized_line_noop initJob "Downloading metadata..." rfl rfl rfl rfl⟩

/-! ## Process Registry, Status Aggregator, Launcher, process exit

Modelled from the spec: the registry (§4.3) maps job identifiers (derived
from the target resource, §3) to DownloadJobs; the aggregator (§4.4)
snapshots it into `{success, isDownloading, tracks, errors, processCount}`
(§6) and evicts jobs whose terminal status has been consumed; the launcher
(§4.1) registers a fresh job or fails with `LaunchError`; on process exit the
parser marks the job complete and a non-zero exit with no parsed errors
surfaces a generic failure entry (§4.2).  All of this lives in
`native-host/gamdl_host.py`, which is not among the checked sources. -/

/-- Modelled from the spec: the Process Registry, a table from job identifier
to DownloadJob (spec §4.3). -/
abbrev Registry : Type := List (String × DownloadJob)

/-- The empty registry (defined initialization, spec §9). -/
def emptyRegistry : Registry := []

/-- Registered job identifiers. -/
def jobKeys (reg : Registry) : List String := reg.map Prod.fst

/-- Modelled from the spec: insert-if-absent of a fresh job under the
identifier derived from the target resource (spec §3, §4.3), with the initial
placeholder state visible immediately on insert (spec §5). -/
def registerJob (reg : Registry) (jid : String) : Registry :=
  if (jobKeys reg).contains jid then reg else reg ++ [(jid, initJob)]

/-- Replaces the job stored under `jid`. -/
def updateJob (reg : Registry) (jid : String) (j : DownloadJob) : Registry :=
  reg.map (fun p => if p.1 = jid then (jid, j) else p)

/-- Response value for a download request (spec §6): `{success, message}` or
`{success:false, error}`. -/
structure HostResponse where
  success : Bool
  message : Option String
  error : Option String
deriving DecidableEq, Repr

/-- Modelled from the spec: the message of the `LaunchError` raised when the
external tool cannot be located or the process fails to start (spec §4.1,
§7) — a broken-installation report, not a per-track error entry. -/
def launchErrorMsg : String :=
  "LaunchError: gamdl could not be located or failed to start; check your installation"

/-- Modelled from the spec: the Process Launcher (spec §4.1).  `spawnOk`
abstracts whether the external tool was located and its process started.  On
success it registers a new DownloadJob before returning; on failure it
returns a `LaunchError` response immediately and synchronously, leaving the
registry untouched. -/
def launchDownload (reg : Registry) (resource : String) (spawnOk : Bool) :
    HostResponse × Registry :=
  if spawnOk then
    ({ success := true, message := some ("Download started for " ++ resource), error := none },
     registerJob reg resource)
  else
    ({ success := false, message := none, error := some launchErrorMsg }, reg)

/-- Modelled from the spec: the generic failure entry surfaced when a process
exits non-zero without any parsed error lines (spec §4.2), so the UI never
reports silent failure as success. -/
def genericFailureMsg : String := "Download process failed"

/-- Modelled from the spec: process-exit handling (spec §4.2) — the job is
marked complete regardless of exit code, and a non-zero exit with an empty
error list gains the generic failure entry. -/
def onProcessExit (job : DownloadJob) (exitCode : Int) : DownloadJob :=
  { job with
    complete := true,
    errors := if exitCode ≠ 0 && job.errors.isEmpty
              then job.errors ++ [genericFailureMsg] else job.errors }

/-- Status snapshot delivered to `check_status` (spec §4.4, §6). -/
structure StatusSnapshot where
  success : Bool
  isDownloading : Bool
  tracks : List TrackProgress
  errors : List String
  processCount : Nat
deriving DecidableEq, Repr

/-- The error strings accumulated across all jobs (spec §4.4). -/
def aggregateErrors (reg : Registry) : List String :=
  (reg.map (fun p => p.2.errors)).flatten

/-- Modelled from the spec: the Status Aggregator (spec §4.4, §6).  It
snapshots the registry — one TrackProgress per job, the accumulated errors,
the process count, and whether any process is still alive or awaiting final
status collection (spec §3) — and evicts jobs whose terminal status has now
been consumed, so that once all jobs are terminal and reported once,
subsequent queries report not-downloading on a cleared registry. -/
def checkStatus (reg : Registry) : StatusSnapshot × Registry :=
  ({ success := true,
     isDownloading := !reg.isEmpty,
     tracks := reg.map (fun p => p.2.progress),
     errors := aggregateErrors reg,
     processCount := reg.length },
   reg.filter (fun p => !p.2.complete))

/-- The registry left behind by one status query. -/
def stepStatus (reg : Registry) : Registry := (checkStatus reg).2

/-- C2: a process exiting non-zero whose output produced no error lines is
still marked complete, and the next status query's aggregated error list
contains the generic failure entry. -/
theorem exit_nonzero_generic_error (reg : Registry) (jid : String) (job : DownloadJob)
    (hmem : (jid, job) ∈ reg) (hnoerr : job.errors = []) (code : Int) (hc : code ≠ 0) :
    (onProcessExit job code).complete = true ∧
    genericFailureMsg ∈ (checkStatus (updateJob reg jid (onProcessExit job code))).1.errors := by
  constructor
  · rfl
  · have herr : (onProcessExit job code).errors = [genericFailureMsg] := by
      simp [onProcessExit, hnoerr, hc]
    have hmem2 : (jid, onProcessExit job code) ∈ updateJob reg jid (onProcessExit job code) := by
      refine List.mem_map.2 ⟨(jid, job), hmem, ?_⟩
      simp
    have : (onProcessExit job code).errors ∈
        (updateJob reg jid (onProcessExit job code)).map (fun p => p.2.errors) :=
      List.mem_map.2 ⟨(jid, onProcessExit job code), hmem2, rfl⟩
    simpa [checkStatus, aggregateErrors] using
      List.mem_flatten.2 ⟨(onProcessExit job code).errors, this, by simp [herr]⟩

/-- C2 witness: a registry holding one error-free job whose process exits
with code 1. -/
theorem exit_nonzero_generic_error_witness :
    (onProcessExit initJob 1).complete = true ∧
    genericFailureMsg ∈
      (checkStatus (updateJob [("album:123", initJob)] "album:123" (onProcessExit initJob 1))).1.errors :=
  exit_nonzero_generic_error [("album:123", initJob)] "album:123" initJob
    (by simp) rfl 1 (by decide)

/-- C3: once every registered job is terminal, the first status query clears
the registry, and every subsequent `check_status` (with no new jobs launched
in between) reports `isDownloading = false` on an empty registry. -/
theorem terminal_reported_then_idle (reg : Registry)
    (h : ∀ p ∈ reg, p.2.complete = true) (k : Nat) :
    stepStatus^[k + 1] reg = emptyRegistry ∧
    (checkStatus (stepStatus^[k + 1] reg)).1.isDownloading = false := by
  have h1 : stepStatus reg = emptyRegistry := by
    simp only [stepStatus, checkStatus, emptyRegistry]
    exact List.filter_eq_nil_iff.2 (fun p hp => by simp [h p hp])
  have hfix : stepStatus emptyRegistry = emptyRegistry := rfl
  have h2 : stepStatus^[k + 1] reg = emptyRegistry := by
    rw [Function.iterate_succ_apply, h1]
    exact Function.iterate_fixed hfix k
  exact ⟨h2, by rw [h2]; rfl⟩

/-- C3 witness: a registry with one completed job, queried twice. -/
theorem terminal_reported_then_idle_witness :
    stepStatus^[1] [("album:123", onProcessExit initJob 0)] = emptyRegistry ∧
    (checkStatus (stepStatus^[1] [("album:123", onProcessExit initJob 0)])).1.isDownloading = false :=
  terminal_reported_then_idle [("album:123", onProcessExit initJob 0)]
    (by intro p hp; simp at hp; simp [hp, onProcessExit]) 0

/-- C5: when the external tool cannot be located or its process fails to
start, the download request fails immediately and synchronously with the
`LaunchError` response, and no job is registered — so the broken-installation
message is delivered in the launch response itself and never as a per-track
error entry of a later status poll. -/
theorem launch_failure_synchronous (reg : Registry) (resource : String) :
    (launchDownload reg resource false).1.success = false ∧
    (launchDownload reg resource false).1.error = some launchErrorMsg ∧
    (launchDownload reg resource false).2 = reg ∧
    (checkStatus (launchDownload reg resource false).2).1.errors =
      (checkStatus reg).1.errors :=
  ⟨rfl, rfl, rfl, rfl⟩

/-- C7: launching two downloads with different target resources creates two
independent registry entries, and a status query issued while both run
returns exactly two TrackProgress entries with `processCount = 2`. -/
theorem two_launches_two_entries (r1 r2 : String) (h : r1 ≠ r2) :
    jobKeys (launchDownload (launchDownload emptyRegistry r1 true).2 r2 true).2 = [r1, r2] ∧
    (checkStatus (launchDownload (launchDownload emptyRegistry r1 true).2 r2 true).2).1.tracks.length = 2 ∧
    (checkStatus (launchDownload (launchDownload emptyRegistry r1 true).2 r2 true).2).1.processCount = 2 := by
  have hne : (r2 == r1) = false := beq_eq_false_iff_ne.2 (Ne.symm h)
  have hreg1 : (launchDownload emptyRegistry r1 true).2 = [(r1, initJob)] := by
    simp [launchDownload, registerJob, jobKeys, emptyRegistry]
  have hreg2 : (launchDownload (launchDownload emptyRegistry r1 true).2 r2 true).2 =
      [(r1, initJob), (r2, initJob)] := by
    rw [hreg1]
    simp [launchDownload, registerJob, jobKeys, List.contains, hne, Ne.symm h]
  rw [hreg2]
  exact ⟨rfl, rfl, rfl⟩

/-- C7 witness: two concrete distinct resources. -/
theorem two_launches_two_entries_witness :
    jobKeys (launchDownload (launchDownload emptyRegistry "album:1" true).2 "album:2" true).2 =
      ["album:1", "album:2"] ∧
    (checkStatus
      (launchDownload (launchDownload emptyRegistry "album:1" true).2 "album:2" true).2).1.tracks.length = 2 ∧
    (checkStatus
      (launchDownload (launchDownload emptyRegistry "album:1" true).2 "album:2" true).2).1.processCount = 2 :=
  two_launches_two_entries "album:1" "album:2" (by decide)

/-! ## Item Lister -/

/-- Modelled from the spec: `CatalogItem` — identifier, display name, type
(song/album), duration, track/disc number, release metadata, derived
"already downloaded" flag (spec §3).  From `gamdl_host.py`, not among the
checked sources. -/
structure CatalogItem where
  id : String
  name : String
  type : String
  durationInMillis : Nat
  trackNumber : Nat
  discNumber : Nat
  releaseDate : String
  downloaded : Bool
deriving DecidableEq, Repr

/-- Resource types that support item-level listing; the popup source's
`SELECTABLE_TYPES` lists `artist` and `album` (popup script, line 28). -/
def SELECTABLE_TYPES : List String := ["artist", "album"]

/-- Whether a resource type supports item-level listing. -/
def supportsItemListing (ty : String) : Bool := SELECTABLE_TYPES.contains ty

/-- Outcome of the catalog query performed for a listing request. -/
inductive QueryResult where
  | ok (items : List CatalogItem)
  | failed (msg : String)
deriving DecidableEq, Repr

/-- Response value for a `fetch_items` request (spec §6):
`{success, items:[CatalogItem]}` or `{success:false, error}`. -/
structure FetchResponse where
  success : Bool
  items : Option (List CatalogItem)
  error : Option String
deriving DecidableEq, Repr

/-- Modelled from the spec: the Item Lister (spec §4.5, §7).  A resource type
without item-level listing support, or a failed query, yields a
`{success:false}` response carrying a `FetchError`; only a successful query
on a supported type yields `{success:true, items}`. -/
def fetchItems (ty : String) (q : QueryResult) : FetchResponse :=
  if supportsItemListing ty then
    match q with
    | .ok its => { success := true, items := some its, error := none }
    | .failed m => { success := false, items := none, error := some ("FetchError: " ++ m) }
  else
    { success := false, items := none,
      error := some ("FetchError: item listing not supported for " ++ ty) }

/-- C6: a `fetch_items` request on a resource type without item-level listing
support, or whose query fails, yields `{success:false}` with a `FetchError`
and no items array — a failure is never represented as a successful result
with an empty items array. -/
theorem fetch_items_failure_shape (ty : String) (q : QueryResult)
    (h : supportsItemListing ty = false ∨ ∃ m, q = .failed m) :
    (fetchItems ty q).success = false ∧
    (∃ e, (fetchItems ty q).error = some ("FetchError: " ++ e)) ∧
    (fetchItems ty q).items = none := by
  rcases h with h | ⟨m, rfl⟩
  · unfold fetchItems
    rw [h]
    exact ⟨rfl, ⟨"item listing not supported for " ++ ty, rfl⟩, rfl⟩
  · unfold fetchItems
    cases hs : supportsItemListing ty
    · exact ⟨rfl, ⟨"item listing not supported for " ++ ty, rfl⟩, rfl⟩
    · exact ⟨rfl, ⟨m, rfl⟩, rfl⟩

/-- C6 witness: fetching items for a `playlist` resource, whose type is not
in `SELECTABLE_TYPES`, even when the query itself would have succeeded with
an empty list. -/
theorem fetch_items_failure_shape_witness :
    (fetchItems "playlist" (.ok [])).success = false ∧
    (∃ e, (fetchItems "playlist" (.ok [])).error = some ("FetchError: " ++ e)) ∧
    (fetchItems "playlist" (.ok [])).items = none :=
  fetch_items_failure_shape "playlist" (.ok []) (Or.inl (by decide))

/-! ## Background worker: download request handling

Embedded from `src/background.js` (`handleDownload`, lines 26–66).  The
promise resolves from exactly one of three places: the native host's reply
(`port.onMessage`), a disconnect that left `chrome.runtime.lastError` set
(`port.onDisconnect`), or a synchronous throw while connecting (the `catch`
block).  A host reply is an arbitrary payload; only the truthiness of its
`success` field and the presence of its `message`/`error` fields matter. -/

/-- The event that settles the `handleDownload` promise: a native-host reply
(with the truthiness of `success` and the optional `message`/`error` fields
of the payload), a disconnect with `chrome.runtime.lastError` set, or a
synchronous throw while connecting. -/
inductive HostEvent where
  | replied (success : Bool) (message : Option String) (error : Option String)
  | disconnected (errMsg : String)
  | threw (errMsg : String)
deriving DecidableEq, Repr

/-- Whether `pat` occurs as a contiguous run inside `l`
(JavaScript `String.prototype.includes`). -/
def listContainsSeq (pat l : List Char) : Bool :=
  match l with
  | [] => pat.isEmpty
  | _ :: tl => pat.isPrefixOf l || listContainsSeq pat tl

/-- Whether `pat` occurs as a substring of `s`. -/
def strIncludes (s pat : String) : Bool := listContainsSeq pat.toList s.toList

/-- The friendlier message substituted when the disconnect error mentions
`not found` (background.js lines 46–49). -/
def installMsg : String := "Native host not installed. Run install.sh first."

/-- Response shape produced by `handleDownload`. -/
structure DlResponse where
  success : Bool
  message : Option String
  error : Option String
deriving DecidableEq, Repr

/-- `response.error || 'Unknown error'` (background.js line 38): JavaScript
`||` falls through on a missing or empty-string `error` field. -/
def errorOrUnknown (e : Option String) : String :=
  match e with
  | some s => if s.isEmpty then "Unknown error" else s
  | none => "Unknown error"

/-- The value `handleDownload` resolves with (background.js lines 26–66):
a truthy `success` in the host reply resolves `{success:true, message}`;
a falsy one resolves `{success:false, error: response.error || 'Unknown
error'}`; a disconnect with `lastError` resolves `{success:false, error}`
with the `not found` message rewritten; a synchronous throw resolves
`{success:false, error}`. -/
def handleDownload : HostEvent → DlResponse
  | .replied true m _ => { success := true, message := m, error := none }
  | .replied false _ e => { success := false, message := none, error := some (errorOrUnknown e) }
  | .disconnected msg =>
    { success := false, message := none,
      error := some (if strIncludes msg "not found" then installMsg else msg) }
  | .threw msg => { success := false, message := none, error := some msg }

/-- C4: every response delivered by `handleDownload` is either
`{success:true, message}` with no error field, or `{success:false, error}`
with no message field — also when the native host replies with an
unrecognized payload or the connection fails. -/
theorem download_response_shape (ev : HostEvent) :
    ((handleDownload ev).success = true ∧ (handleDownload ev).error = none) ∨
    ((handleDownload ev).success = false ∧ (∃ e, (handleDownload ev).error = some e) ∧
      (handleDownload ev).message = none) := by
  cases ev with
  | replied s m e =>
    cases s
    · exact Or.inr ⟨rfl, ⟨errorOrUnknown e, rfl⟩, rfl⟩
    · exact Or.inl ⟨rfl, rfl⟩
  | disconnected msg =>
    exact Or.inr ⟨rfl, ⟨_, rfl⟩, rfl⟩
  | threw msg =>
    exact Or.inr ⟨rfl, ⟨msg, rfl⟩, rfl⟩

/-! ## Selected-item subset forwarding

Embedded from the popup script (download button listener, lines 244–254) and
`src/background.js` (`handleDownload`, lines 54–58).  The popup attaches
`selectedIds` to the download message exactly when
`items.length > 0 && selectedIds.size > 0 && selectedIds.size < items.length`;
the background worker then copies it into the native message exactly when
`selectedIds && selectedIds.length > 0`. -/

/-- The `selectedIds` field the popup attaches to its download message
(popup script lines 251–254); `itemIds` are the listed items' ids and
`selected` is `Array.from(selectedIds)` of the selection set. -/
def popupSelectedIds (itemIds selected : List String) : Option (List String) :=
  if 0 < itemIds.length && 0 < selected.length && selected.length < itemIds.length
  then some selected else none

/-- The `selectedIds` field the background worker copies into the native
message (background.js lines 56–58). -/
def bgSelectedIds (ids : Option (List String)) : Option (List String) :=
  match ids with
  | some l => if 0 < l.length then some l else none
  | none => none

/-- The `selectedIds` field of the message that reaches the native host. -/
def sentSelectedIds (itemIds selected : List String) : Option (List String) :=
  bgSelectedIds (popupSelectedIds itemIds selected)

/-- C9: the native download message carries a `selectedIds` field if and only
if the selection is a nonempty proper subset of the listed items; selecting
every item, or none, sends a whole-resource request without the field.  The
selection set is modelled as a duplicate-free list drawn from the
duplicate-free list of listed item ids. -/
theorem selected_ids_iff_proper_subset (itemIds selected : List String)
    (hsub : ∀ x ∈ selected, x ∈ itemIds) (hnd : selected.Nodup) (hni : itemIds.Nodup) :
    (sentSelectedIds itemIds selected).isSome = true ↔
      (selected ≠ [] ∧ ∃ y ∈ itemIds, y ∉ selected) := by
  have hfsub : selected.toFinset ⊆ itemIds.toFinset := by
    intro x hx
    exact List.mem_toFinset.2 (hsub x (List.mem_toFinset.1 hx))
  have hcards : selected.toFinset.card = selected.length := List.toFinset_card_of_nodup hnd
  have hcardi : itemIds.toFinset.card = itemIds.length := List.toFinset_card_of_nodup hni
  constructor
  · intro hs
    have hcond : (0 < itemIds.length && 0 < selected.length &&
        selected.length < itemIds.length) = true := by
      by_contra hc
      simp only [sentSelectedIds, popupSelectedIds] at hs
      rw [if_neg hc] at hs
      simp [bgSelectedIds] at hs
    simp only [Bool.and_eq_true, decide_eq_true_eq] at hcond
    obtain ⟨⟨-, hsel⟩, hlt⟩ := hcond
    refine ⟨List.ne_nil_of_length_pos hsel, ?_⟩
    by_contra hno
    push_neg at hno
    have : itemIds.toFinset ⊆ selected.toFinset := by
      intro y hy
      exact List.mem_toFinset.2 (hno y (List.mem_toFinset.1 hy))
    have := Finset.card_le_card this
    omega
  · rintro ⟨hne, y, hy, hyn⟩
    have hsel : 0 < selected.length := List.length_pos.2 hne
    have hssub : selected.toFinset ⊂ itemIds.toFinset := by
      refine ⟨hfsub, fun hback => hyn ?_⟩
      exact List.mem_toFinset.1 (hback (List.mem_toFinset.2 hy))
    have hlt : selected.length < itemIds.length := by
      have := Finset.card_lt_card hssub
      omega
    have hit : 0 < itemIds.length := lt_trans hsel hlt
    simp [sentSelectedIds, popupSelectedIds, bgSelectedIds, hsel, hlt, hit]

/-- C9 witness: one of two listed items selected — the field is sent. -/
theorem selected_ids_iff_proper_subset_witness :
    (sentSelectedIds ["101", "102"] ["101"]).isSome = true :=
  (selected_ids_iff_proper_subset ["101", "102"] ["101"]
      (by decide) (by decide) (by decide)).2
    ⟨by decide, "102", by decide, by decide⟩

/-! ## Apple Music URL classification

Embedded from the popup script: `VALID_URL_PATTERN` (lines 2–15) and the
content-type determination in the `DOMContentLoaded` listener (lines 67–74).
The regular expression is unanchored and has two alternatives: the catalog
form `/{storefront}/{type}[/{slug}]/{id}[?i={sub_id}]` and the library form
`[/{library_storefront}]/library/{library_type}/{library_id}`, both after the
literal `https://music.apple.com`.  The matcher below reproduces the JS
engine's behavior on this pattern: leftmost match position, alternatives in
written order, greedy runs, and fallback past an optional group when its body
cannot complete (slug and library storefront are the only optional groups
whose failure requires such fallback; the character classes of neighbouring
pieces make every other piece deterministic). -/

/-- `[a-z]` -/
def isLowerCh (c : Char) : Bool := 'a' ≤ c && c ≤ 'z'

/-- `[0-9]` -/
def isDigitCh (c : Char) : Bool := '0' ≤ c && c ≤ '9'

/-- `[a-zA-Z0-9]` -/
def isAlnumCh (c : Char) : Bool := isDigitCh c || isLowerCh c || ('A' ≤ c && c ≤ 'Z')

/-- `[0-9a-z]` -/
def isLowerDigitCh (c : Char) : Bool := isDigitCh c || isLowerCh c

/-- `[^\s/]` -/
def isSlugCh (c : Char) : Bool := !(c = '/' || c.isWhitespace)

/-- Consumes a literal; `some rest` on success. -/
def matchLit : List Char → List Char → Option (List Char)
  | [], s => some s
  | _ :: _, [] => none
  | p :: ps, c :: cs => if p = c then matchLit ps cs else none

/-- Consumes exactly `n` characters satisfying `p`. -/
def matchCount : Nat → (Char → Bool) → List Char → Option (List Char × List Char)
  | 0, _, s => some ([], s)
  | _ + 1, _, [] => none
  | n + 1, p, c :: cs =>
    if p c then (matchCount n p cs).map (fun t => (c :: t.1, t.2)) else none

/-- Consumes a greedy nonempty run of characters satisfying `p`. -/
def matchPlus (p : Char → Bool) (s : List Char) : Option (List Char × List Char) :=
  match s.span p with
  | (t, r) => if t.isEmpty then none else some (t, r)

/-- Tries string alternatives in written order, returning the first that
matches literally.  Sound for the pattern's alternations because no
alternative is a prefix of another, so at most one can match at a
position. -/
def matchFirstLit : List String → List Char → Option (String × List Char)
  | [], _ => none
  | a :: as, s =>
    match matchLit a.toList s with
    | some r => some (a, r)
    | none => matchFirstLit as s

/-- The named capture groups of `VALID_URL_PATTERN`. -/
structure UrlGroups where
  storefront : Option String
  type : Option String
  slug : Option String
  id : Option String
  sub_id : Option String
  library_storefront : Option String
  library_type : Option String
  library_id : Option String
deriving DecidableEq, Repr

/-- The type alternation `artist|album|playlist|song|music-video|post`. -/
def typeAlternatives : List String :=
  ["artist", "album", "playlist", "song", "music-video", "post"]

/-- The id alternation `[0-9]+|pl\.[0-9a-z]{32}|pl\.u-[a-zA-Z0-9]+`. -/
def matchId (s : List Char) : Option (String × List Char) :=
  match matchPlus isDigitCh s with
  | some (t, r) => some (t.asString, r)
  | none =>
    match matchLit "pl.".toList s with
    | none => none
    | some r1 =>
      match matchCount 32 isLowerDigitCh r1 with
      | some (t, r) => some ("pl." ++ t.asString, r)
      | none =>
        match matchLit "u-".toList r1 with
        | some r2 =>
          match matchPlus isAlnumCh r2 with
          | some (t, r) => some ("pl.u-" ++ t.asString, r)
          | none => none
        | none => none

/-- The optional sub-id suffix `(?:\?i=(?<sub_id>[0-9]+))?`; on failure the
group is skipped and nothing is consumed. -/
def matchSubId (s : List Char) : Option String :=
  match matchLit "?i=".toList s with
  | some r =>
    match matchPlus isDigitCh r with
    | some (t, _) => some t.asString
    | none => none
  | none => none

/-- The tail of the catalog alternative after the type segment: the optional
slug group `(?:/(?<slug>[^\s/]+))?`, then `/` id, then the optional sub-id.
If the slug path cannot complete, the optional group is skipped and the id is
required directly — the regex engine's fallback for a failed optional
group. -/
def matchAfterType (sf ty : String) (s : List Char) : Option UrlGroups :=
  let withSlug : Option UrlGroups :=
    match matchLit "/".toList s with
    | none => none
    | some s1 =>
      match matchPlus isSlugCh s1 with
      | none => none
      | some (slug, s2) =>
        match matchLit "/".toList s2 with
        | none => none
        | some s3 =>
          match matchId s3 with
          | none => none
          | some (idStr, s4) =>
            some { storefront := some sf, type := some ty, slug := some slug.asString,
                   id := some idStr, sub_id := matchSubId s4,
                   library_storefront := none, library_type := none, library_id := none }
  match withSlug with
  | some g => some g
  | none =>
    match matchLit "/".toList s with
    | none => none
    | some s1 =>
      match matchId s1 with
      | none => none
      | some (idStr, s2) =>
        some { storefront := some sf, type := some ty, slug := none,
               id := some idStr, sub_id := matchSubId s2,
               library_storefront := none, library_type := none, library_id := none }

/-- The catalog alternative
`/(?<storefront>[a-z]{2})/(?<type>...)(?:/(?<slug>...))?/(?<id>...)(?:\?i=...)?`. -/
def matchCatalog (s : List Char) : Option UrlGroups :=
  match matchLit "/".toList s with
  | none => none
  | some s1 =>
    match matchCount 2 isLowerCh s1 with
    | none => none
    | some (sf, s2) =>
      match matchLit "/".toList s2 with
      | none => none
      | some s3 =>
        match matchFirstLit typeAlternatives s3 with
        | none => none
        | some (ty, s4) => matchAfterType sf.asString ty s4

/-- The library id alternation `p\.[a-zA-Z0-9]+|l\.[a-zA-Z0-9]+`. -/
def matchLibId (s : List Char) : Option (String × List Char) :=
  match matchLit "p.".toList s with
  | some r =>
    match matchPlus isAlnumCh r with
    | some (t, r2) => some ("p." ++ t.asString, r2)
    | none => none
  | none =>
    match matchLit "l.".toList s with
    | some r =>
      match matchPlus isAlnumCh r with
      | some (t, r2) => some ("l." ++ t.asString, r2)
      | none => none
    | none => none

/-- The `/library/{playlist|albums}/{library_id}` core of the library
alternative, with the already-parsed optional storefront. -/
def matchLibCore (sf : Option String) (s : List Char) : Option UrlGroups :=
  match matchLit "/library/".toList s with
  | none => none
  | some s1 =>
    match matchFirstLit ["playlist", "albums"] s1 with
    | none => none
    | some (lty, s2) =>
      match matchLit "/".toList s2 with
      | none => none
      | some s3 =>
        match matchLibId s3 with
        | none => none
        | some (lid, _) =>
          some { storefront := none, type := none, slug := none, id := none,
                 sub_id := none, library_storefront := sf,
                 library_type := some lty, library_id := some lid }

/-- The library alternative
`(?:/(?<library_storefront>[a-z]{2}))?/library/...`; a failed optional
storefront group falls back to matching `/library/` directly. -/
def matchLibrary (s : List Char) : Option UrlGroups :=
  let withSf : Option UrlGroups :=
    match matchLit "/".toList s with
    | none => none
    | some s1 =>
      match matchCount 2 isLowerCh s1 with
      | none => none
      | some (sf, s2) => matchLibCore (some sf.asString) s2
  match withSf with
  | some g => some g
  | none => matchLibCore none s

/-- One attempt of `VALID_URL_PATTERN` at a fixed position: the host literal,
then the catalog alternative, then the library alternative. -/
def matchAt (s : List Char) : Option UrlGroups :=
  match matchLit "https://music.apple.com".toList s with
  | none => none
  | some r =>
    match matchCatalog r with
    | some g => some g
    | none => matchLibrary r

/-- Leftmost-match scan of an unanchored pattern. -/
def findMatch : List Char → Option UrlGroups
  | [] => none
  | c :: cs =>
    match matchAt (c :: cs) with
    | some g => some g
    | none => findMatch cs

/-- `url.match(VALID_URL_PATTERN)` (popup script line 56), reduced to its
named groups. -/
def matchValidUrl (url : String) : Option UrlGroups := findMatch url.toList

/-- The content-type determination of the popup (popup script lines 67–74):
a captured `sub_id` wins over the path's type segment, which wins over the
library type. -/
def classifyContentType (g : UrlGroups) : Option String :=
  if g.sub_id.isSome then some "song"
  else if g.type.isSome then g.type
  else if g.library_type.isSome then g.library_type
  else none

/-- C10: every Apple Music URL that matches `VALID_URL_PATTERN` with a
captured `?i=<digits>` sub-id is classified as `song` by the popup,
overriding the album/playlist type segment present in the URL path. -/
theorem subid_classifies_song (url : String) (g : UrlGroups) (s : String)
    (hm : matchValidUrl url = some g) (hs : g.sub_id = some s) :
    classifyContentType g = some "song" := by
  have : (matchValidUrl url).isSome = true := by rw [hm]; rfl
  simp [classifyContentType, hs]

/-- C10 witness: an album URL with `?i=125[…]` is matched with
`type = album` yet classified as `song`. -/
theorem subid_classifies_song_witness :
    matchValidUrl "https://music.apple.com/us/album/views/1254919065?i=1254919069" =
      some { storefront := some "us", type := some "album", slug := some "views",
             id := some "1254919065", sub_id := some "1254919069",
             library_storefront := none, library_type := none, library_id := none } ∧
    classifyContentType
      { storefront := some "us", type := some "album", slug := some "views",
        id := some "1254919065", sub_id := some "1254919069",
        library_storefront := none, library_type := none, library_id := none } = some "song" :=
  ⟨by decide,
   subid_classifies_song "https://music.apple.com/us/album/views/1254919065?i=1254919069"
     { storefront := some "us", type := some "album", slug := some "views",
       id := some "1254919065", sub_id := some "1254919069",
       library_storefront := none, library_type := none, library_id := none }
     "1254919069" (by decide) rfl⟩

end Gamdl
